import Mathlib

/-!
Shallow embedding of the MIDI-to-OBS bridge (`main.py`).

Modelling conventions:
* Python dict rows (TinyDB bindings) become the `Binding` structure; fields read
  with `.get(...)` or `row["..."]` are `Option`-typed, and `row["..."]` access of
  a missing field is modelled as an `Except.error` ("KeyError").
* Python truthiness of string fields (`if not action:`) treats both a missing
  field and the empty string as falsy.
* Numeric MIDI data are `Int`; Python float arithmetic in `map_scale` is
  modelled exactly over `ℚ` (the script enables true division).
* `obs_socket.send(...)` is modelled by appending an `OutMsg` to the `sent`
  trace of the state.  A Python `%`-formatted message `tpl % arg` is kept
  symbolic as `OutMsg.formatted tpl arg` so that float rendering is not needed;
  `tpl % (id, target)` request envelopes are `OutMsg.envelope tpl id target`.
* `int(payload["message-id"])` is modelled with `parseInt` (integer equality
  semantics on canonical decimal strings, per the upstream note that only
  integer-equality semantics are relied on); an unparsable string is a
  `ValueError`-style `Except.error`.
-/

/-- One row of the TinyDB mapping table, as the dispatch code reads it. -/
structure Binding where
  msg_type : String
  msgNoC : Int
  input_type : Option String
  action : Option String
  request : Option String
  target : Option String
  cmd : Option String
  scale_low : Option ℚ
  scale_high : Option ℚ
  deriving DecidableEq, Repr

/-- One element of `_action_buffer`: `[self._action_counter, action, request]`. -/
structure Entry where
  id : Nat
  template : String
  kind : String
  deriving DecidableEq, Repr

/-- Argument substituted into a `%`-format slot of an outbound message. -/
inductive FmtArg where
  | s (v : String)
  | i (v : Int)
  | q (v : ℚ)
  deriving DecidableEq, Repr

/-- One outbound websocket message (`obs_socket.send`). -/
inductive OutMsg where
  | verbatim (s : String)
  | formatted (tpl : String) (arg : FmtArg)
  | envelope (tpl : String) (id : Nat) (tgt : String)
  deriving DecidableEq, Repr

/-- The mutable state owned by `MidiHandler`: the binding table, the pending
action buffer, the correlation counter, and the trace of sent messages. -/
structure State where
  db : List Binding
  buffer : List Entry
  counter : Nat
  sent : List OutMsg
  deriving DecidableEq, Repr

/-- A decoded inbound OBS reply payload, with the fields the resolver reads.
`errorPresent` models the membership test `"error" in payload`. -/
structure Payload where
  errorPresent : Bool
  messageId : Option String
  visible : Option Bool
  sourceSettingsUrl : Option String
  deriving DecidableEq, Repr

/-- `map_scale(inp, ista, isto, osta, osto)` from `main.py`, exactly over `ℚ`. -/
def map_scale (inp ista isto osta osto : ℚ) : ℚ :=
  osta + (osto - osta) * ((inp - ista) / (isto - ista))

/-- Python `int(...)` applied to a float: truncation toward zero. -/
def ratTrunc (q : ℚ) : Int :=
  if 0 ≤ q then ⌊q⌋ else ⌈q⌉

/-- Accumulator pass of `parseInt` over the decimal digits. -/
def digitsAcc (acc : Nat) : List Char → Option Nat
  | [] => some acc
  | c :: cs => if c.isDigit then digitsAcc (acc * 10 + (c.toNat - 48)) cs else none

/-- Python `int(...)` applied to a string, on canonical decimal strings:
an optional minus sign followed by decimal digits; anything else raises
`ValueError`, modelled as `none`. -/
def parseInt (s : String) : Option Int :=
  match s.data with
  | [] => none
  | '-' :: cs =>
    match cs with
    | [] => none
    | _ => (digitsAcc 0 cs).map fun n => -(n : Int)
  | cs => (digitsAcc 0 cs).map fun n => (n : Int)

/-- The `TEMPLATES` entry for `ToggleSourceVisibility`. -/
def templateTSV : String :=
  "\x7b\n  \"request-type\": \"GetSceneItemProperties\",\n  \"message-id\": \"%d\",\n  \"item\": \"%s\"\n\x7d"

/-- The `TEMPLATES` entry for `ReloadBrowserSource`. -/
def templateRBS : String :=
  "\x7b\n  \"request-type\": \"GetSourceSettings\",\n  \"message-id\": \"%d\",\n  \"sourceName\": \"%s\"\n\x7d"

/-- The `TEMPLATES` dict: reply-requiring requests and their envelope bodies. -/
def TEMPLATES (req : String) : Option String :=
  if req == "ToggleSourceVisibility" then some templateTSV
  else if req == "ReloadBrowserSource" then some templateRBS
  else none

/-- `MidiHandler.send_action`.  Returns the Python boolean result together with
the successor state.  Field reads use `.get`, so no exception can escape;
Python falsiness of `None` and `""` is modelled on each read. -/
def send_action (st : State) (b : Binding) : Bool × State :=
  match b.action with
  | none => (false, st)
  | some act =>
    if act == "" then (false, st)
    else
      match b.request with
      | none => (true, { st with sent := st.sent ++ [OutMsg.verbatim act] })
      | some req =>
        if req == "" then (true, { st with sent := st.sent ++ [OutMsg.verbatim act] })
        else
          match TEMPLATES req with
          | none => (false, st)
          | some tpl =>
            match b.target with
            | none => (false, st)
            | some tgt =>
              if tgt == "" then (false, st)
              else
                (true, { st with
                  buffer := st.buffer ++ [⟨st.counter, act, req⟩],
                  counter := st.counter + 1,
                  sent := st.sent ++ [OutMsg.envelope tpl st.counter tgt] })

/-- The `for result in results` loop of `handle_midi_button`: first successful
`send_action` breaks the loop. -/
def buttonLoop (st : State) : List Binding → State
  | [] => st
  | b :: rest =>
    match send_action st b with
    | (true, st2) => st2
    | (false, st2) => buttonLoop st2 rest

/-- `MidiHandler.handle_midi_button`. -/
def handle_midi_button (st : State) (t : String) (note : Int) : State :=
  let results := st.db.filter fun b => b.msg_type == t && b.msgNoC == note
  if results.isEmpty then st else buttonLoop st results

/-- The `for result in results` loop of `handle_midi_fader`.  Direct dict
indexing (`result["input_type"]`, `result["action"]`, `result["cmd"]`,
`result["scale_low"]`, `result["scale_high"]`) is `Except.error` on a missing
field, exactly where the Python code would raise `KeyError`. -/
def faderLoop (st : State) (value : Int) : List Binding → Except String State
  | [] => Except.ok st
  | b :: rest =>
    match b.input_type with
    | none => Except.error ("KeyError: input_type")
    | some itype =>
      match b.action with
      | none => Except.error ("KeyError: action")
      | some act =>
        if itype == "button" then
          if value == 127 then
            match send_action st b with
            | (true, st2) => Except.ok st2
            | (false, st2) => faderLoop st2 value rest
          else Except.ok st
        else if itype == "fader" then
          match b.cmd with
          | none => Except.error ("KeyError: cmd")
          | some command =>
            match b.scale_low with
            | none => Except.error ("KeyError: scale_low")
            | some lo =>
              match b.scale_high with
              | none => Except.error ("KeyError: scale_high")
              | some hi =>
                let scaled := map_scale (value : ℚ) 0 127 lo hi
                if command == "SetSourcePosition" || command == "SetSourceScale" then
                  Except.ok { st with sent := st.sent ++ [OutMsg.formatted act (FmtArg.q scaled)] }
                else if command == "SetVolume" then
                  Except.ok { st with sent := st.sent ++ [OutMsg.formatted act (FmtArg.q (scaled ^ 3))] }
                else if command == "SetSourceRotation" || command == "SetTransitionDuration" || command == "SetSyncOffset" then
                  Except.ok { st with sent := st.sent ++ [OutMsg.formatted act (FmtArg.i (ratTrunc scaled))] }
                else faderLoop st value rest
        else faderLoop st value rest

/-- `MidiHandler.handle_midi_fader`. -/
def handle_midi_fader (st : State) (control value : Int) : Except String State :=
  let results := st.db.filter fun b => b.msg_type == "control_change" && b.msgNoC == control
  if results.isEmpty then Except.ok st else faderLoop st value results

/-- Python `list.remove`: delete the first element equal to `e` (total model;
the caller only removes elements it found in the list). -/
def removeFirst : List Entry → Entry → List Entry
  | [], _ => []
  | x :: xs, e => if x == e then xs else x :: removeFirst xs e

/-- The `for action in self._action_buffer` loop of `handle_obs_message`.
`int(payload["message-id"])` is evaluated in each comparison; its parse
failure, and missing payload fields in the matched branch, are errors. -/
def obsScan (st : State) (p : Payload) (mid : String) : List Entry → Except String State
  | [] => Except.ok st
  | e :: rest =>
    match parseInt mid with
    | none => Except.error ("ValueError: invalid literal for int")
    | some n =>
      if (e.id : Int) != n then obsScan st p mid rest
      else
        if e.kind == "ToggleSourceVisibility" then
          match p.visible with
          | none => Except.error ("KeyError: visible")
          | some vis =>
            let invisible := if vis then "false" else "true"
            Except.ok { st with
              sent := st.sent ++ [OutMsg.formatted e.template (FmtArg.s invisible)],
              buffer := removeFirst st.buffer e }
        else if e.kind == "ReloadBrowserSource" then
          match p.sourceSettingsUrl with
          | none => Except.error ("KeyError: sourceSettings")
          | some src =>
            if src == "" then Except.error ("IndexError: string index out of range")
            else
              let tgt := if src.back == '#' then src.dropRight 1 else src ++ "#"
              Except.ok { st with
                sent := st.sent ++ [OutMsg.formatted e.template (FmtArg.s tgt)],
                buffer := removeFirst st.buffer e }
        else
          Except.ok { st with buffer := removeFirst st.buffer e }

/-- `MidiHandler.handle_obs_message`, on an already-JSON-decoded payload. -/
def handle_obs_message (st : State) (p : Payload) : Except String State :=
  if p.errorPresent then Except.ok st
  else
    match p.messageId with
    | none => Except.error ("KeyError: message-id")
    | some mid => obsScan st p mid st.buffer

/-- One inbound event delivered to the handler callbacks. -/
inductive Op where
  | midiButton (t : String) (note : Int)
  | midiFader (control : Int) (value : Int)
  | obsMsg (p : Payload)
  deriving Repr

/-- One callback invocation.  An uncaught exception kills the process, so no
further mutation happens on an `error` outcome; the state is kept as-is. -/
def step (st : State) : Op → State
  | .midiButton t n => handle_midi_button st t n
  | .midiFader c v =>
    match handle_midi_fader st c v with
    | .ok st2 => st2
    | .error _ => st
  | .obsMsg p =>
    match handle_obs_message st p with
    | .ok st2 => st2
    | .error _ => st

/-- A process lifetime: a sequence of callback invocations. -/
def run (st : State) (ops : List Op) : State := ops.foldl step st

/-- `MidiHandler.__init__`: empty buffer, `_action_counter = 2`, nothing sent. -/
def initState (db : List Binding) : State := ⟨db, [], 2, []⟩

/-- The correlation ids embedded in sent request envelopes, in send order. -/
def envelopeIds (msgs : List OutMsg) : List Nat :=
  msgs.filterMap fun m =>
    match m with
    | .envelope _ n _ => some n
    | _ => none

/-- The correlation ids assigned so far, in order of assignment (each tracked
request sends its envelope at the moment its id is assigned). -/
def assignedIds (st : State) : List Nat := envelopeIds st.sent

/-- The list `[s, s+1, ..., s+n-1]`. -/
def idsFrom (s : Nat) : Nat → List Nat
  | 0 => []
  | n + 1 => s :: idsFrom (s + 1) n

/-- C4: for every input with `inputHigh ≠ inputLow`, `map_scale` equals the
linear interpolation `outputLow + (outputHigh - outputLow) * (v - inputLow) /
(inputHigh - inputLow)`; on the MIDI range, `map_scale 0 0 127 lo hi = lo`,
`map_scale 127 0 127 lo hi = hi`, and `map_scale v 0 127 lo hi` is monotone in
`v` (nondecreasing when `lo ≤ hi`, nonincreasing when `hi ≤ lo`). -/
theorem c4_map_scale_linear (lo hi : ℚ) :
    (∀ v ista isto osta osto : ℚ, isto ≠ ista →
      map_scale v ista isto osta osto =
        osta + (osto - osta) * ((v - ista) / (isto - ista))) ∧
    map_scale 0 0 127 lo hi = lo ∧
    map_scale 127 0 127 lo hi = hi ∧
    (lo ≤ hi → ∀ v w : ℚ, 0 ≤ v → v ≤ w → w ≤ 127 →
      map_scale v 0 127 lo hi ≤ map_scale w 0 127 lo hi) ∧
    (hi ≤ lo → ∀ v w : ℚ, 0 ≤ v → v ≤ w → w ≤ 127 →
      map_scale w 0 127 lo hi ≤ map_scale v 0 127 lo hi) := by
  refine ⟨fun v ista isto osta osto _ => rfl, by norm_num [map_scale], ?_, ?_, ?_⟩
  · show lo + (hi - lo) * ((127 - 0) / (127 - 0)) = hi
    norm_num
  · intro hlh v w _ hvw _
    show lo + (hi - lo) * ((v - 0) / (127 - 0)) ≤ lo + (hi - lo) * ((w - 0) / (127 - 0))
    have hd : (v - 0) / (127 - 0) ≤ (w - 0) / (127 - 0) := by
      rw [div_le_div_iff_of_pos_right (by norm_num : (0:ℚ) < 127 - 0)]
      linarith
    have := mul_le_mul_of_nonneg_left hd (by linarith : (0:ℚ) ≤ hi - lo)
    linarith
  · intro hhl v w _ hvw _
    show lo + (hi - lo) * ((w - 0) / (127 - 0)) ≤ lo + (hi - lo) * ((v - 0) / (127 - 0))
    have hd : (v - 0) / (127 - 0) ≤ (w - 0) / (127 - 0) := by
      rw [div_le_div_iff_of_pos_right (by norm_num : (0:ℚ) < 127 - 0)]
      linarith
    have := mul_le_mul_of_nonpos_left hd (by linarith : hi - lo ≤ (0:ℚ))
    linarith

/-- Witness for C4 at concrete inputs: interpolation formula at `v = 1`,
endpoints for the range `3..9`, monotone rise `64 ≤ 127`, and the antitone
direction for the inverted range `9..3`. -/
theorem c4_map_scale_linear_witness :
    map_scale 1 0 127 (3:ℚ) 9 = 3 + (9 - 3) * ((1 - 0) / (127 - 0)) ∧
    map_scale 0 0 127 (3:ℚ) 9 = 3 ∧
    map_scale 127 0 127 (3:ℚ) 9 = 9 ∧
    map_scale 64 0 127 (3:ℚ) 9 ≤ map_scale 127 0 127 (3:ℚ) 9 ∧
    map_scale 127 0 127 (9:ℚ) 3 ≤ map_scale 64 0 127 (9:ℚ) 3 :=
  ⟨(c4_map_scale_linear 3 9).1 1 0 127 3 9 (by norm_num),
   (c4_map_scale_linear 3 9).2.1,
   (c4_map_scale_linear 3 9).2.2.1,
   (c4_map_scale_linear 3 9).2.2.2.1 (by norm_num) 64 127 (by norm_num)
     (by norm_num) (by norm_num),
   (c4_map_scale_linear 9 3).2.2.2.2 (by norm_num) 64 127 (by norm_num)
     (by norm_num) (by norm_num)⟩

/-- C3: `send_action` returns `false` and transmits nothing when the action is
missing (or empty, which Python truthiness also rejects), when a named tracked
command has no reply template, or when it has no target; an action with no
tracked command is transmitted verbatim with result `true`; a tracked command
allocates the counter as a fresh correlation id, appends the pending entry
`(correlationId, rawAction, commandKind)`, transmits the request envelope
embedding the id and target, and returns `true`. -/
theorem c3_send_action_contract (st : State) (b : Binding) :
    ((b.action = none ∨ b.action = some ("")) → send_action st b = (false, st)) ∧
    (∀ a, b.action = some a → a ≠ "" → (b.request = none ∨ b.request = some ("")) →
      send_action st b = (true, { st with sent := st.sent ++ [OutMsg.verbatim a] })) ∧
    (∀ a r, b.action = some a → a ≠ "" → b.request = some r → r ≠ "" →
      TEMPLATES r = none → send_action st b = (false, st)) ∧
    (∀ a r tpl, b.action = some a → a ≠ "" → b.request = some r → r ≠ "" →
      TEMPLATES r = some tpl → (b.target = none ∨ b.target = some ("")) →
      send_action st b = (false, st)) ∧
    (∀ a r tpl tgt, b.action = some a → a ≠ "" → b.request = some r → r ≠ "" →
      TEMPLATES r = some tpl → b.target = some tgt → tgt ≠ "" →
      send_action st b = (true, { st with
        buffer := st.buffer ++ [⟨st.counter, a, r⟩],
        counter := st.counter + 1,
        sent := st.sent ++ [OutMsg.envelope tpl st.counter tgt] })) := by
  refine ⟨?_, ?_, ?_, ?_, ?_⟩
  · rintro (hA | hA) <;> simp [send_action, hA]
  · rintro a hA ha (hR | hR) <;> simp [send_action, hA, ha, hR]
  · intro a r hA ha hR hr hT
    simp [send_action, hA, ha, hR, hr, hT]
  · rintro a r tpl hA ha hR hr hT (hG | hG) <;>
      simp [send_action, hA, ha, hR, hr, hT, hG]
  · intro a r tpl tgt hA ha hR hr hT hG hg
    simp [send_action, hA, ha, hR, hr, hT, hG, hg]

/-- Witness for C3: each of the five contract branches at a concrete binding,
from the initial state. -/
theorem c3_send_action_contract_witness :
    send_action (initState []) ⟨"note_on", 1, none, none, none, none, none, none, none⟩ =
      (false, initState []) ∧
    send_action (initState []) ⟨"note_on", 1, none, some ("go"), none, none, none, none, none⟩ =
      (true, { initState [] with sent := [] ++ [OutMsg.verbatim ("go")] }) ∧
    send_action (initState []) ⟨"note_on", 1, none, some ("go"), some ("Nope"), none, none, none, none⟩ =
      (false, initState []) ∧
    send_action (initState []) ⟨"note_on", 1, none, some ("go"), some ("ToggleSourceVisibility"), none, none, none, none⟩ =
      (false, initState []) ∧
    send_action (initState []) ⟨"note_on", 1, none, some ("a%s"), some ("ToggleSourceVisibility"), some ("t"), none, none, none⟩ =
      (true, { initState [] with
        buffer := [] ++ [⟨2, "a%s", "ToggleSourceVisibility"⟩],
        counter := 2 + 1,
        sent := [] ++ [OutMsg.envelope templateTSV 2 ("t")] }) :=
  ⟨(c3_send_action_contract (initState []) ⟨"note_on", 1, none, none, none, none, none, none, none⟩).1
      (Or.inl rfl),
   (c3_send_action_contract (initState []) ⟨"note_on", 1, none, some ("go"), none, none, none, none, none⟩).2.1
      ("go") rfl (by decide) (Or.inl rfl),
   (c3_send_action_contract (initState []) ⟨"note_on", 1, none, some ("go"), some ("Nope"), none, none, none, none⟩).2.2.1
      ("go") ("Nope") rfl (by decide) rfl (by decide) rfl,
   (c3_send_action_contract (initState []) ⟨"note_on", 1, none, some ("go"), some ("ToggleSourceVisibility"), none, none, none, none⟩).2.2.2.1
      ("go") ("ToggleSourceVisibility") templateTSV rfl (by decide) rfl (by decide) rfl (Or.inl rfl),
   (c3_send_action_contract (initState []) ⟨"note_on", 1, none, some ("a%s"), some ("ToggleSourceVisibility"), some ("t"), none, none, none⟩).2.2.2.2
      ("a%s") ("ToggleSourceVisibility") templateTSV ("t") rfl (by decide) rfl (by decide) rfl rfl (by decide)⟩

/-- Failed `send_action` attempts transmit nothing and leave the state as-is. -/
theorem send_action_fail_eq (st : State) (b : Binding) :
    (send_action st b).1 = false → (send_action st b).2 = st := by
  rcases hA : b.action with _ | a
  · simp [send_action, hA]
  · rcases hR : b.request with _ | r
    · by_cases ha : a = "" <;> simp [send_action, hA, hR, ha]
    · rcases hT : TEMPLATES r with _ | tpl
      · by_cases ha : a = "" <;> by_cases hr : r = "" <;>
          simp [send_action, hA, hR, hT, ha, hr]
      · rcases hG : b.target with _ | g
        · by_cases ha : a = "" <;> by_cases hr : r = "" <;>
            simp [send_action, hA, hR, hT, hG, ha, hr]
        · by_cases ha : a = "" <;> by_cases hr : r = "" <;> by_cases hg : g = "" <;>
            simp [send_action, hA, hR, hT, hG, ha, hr, hg]

/-- C2: for a button-like MIDI event, an empty lookup transmits nothing and is
no error; otherwise candidates are tried in stored order, a failed
`send_action` leaves the state unchanged and falls through to the next
candidate, the scan stops at the first success, and if every candidate fails
nothing at all is transmitted. -/
theorem c2_button_dispatch (st : State) (t : String) (note : Int) :
    ((st.db.filter fun b => b.msg_type == t && b.msgNoC == note) = [] →
      handle_midi_button st t note = st) ∧
    (∀ b cs, (st.db.filter fun x => x.msg_type == t && x.msgNoC == note) = b :: cs →
      (send_action st b).1 = true → handle_midi_button st t note = (send_action st b).2) ∧
    (∀ b cs, (st.db.filter fun x => x.msg_type == t && x.msgNoC == note) = b :: cs →
      (send_action st b).1 = false → handle_midi_button st t note = buttonLoop st cs) ∧
    (∀ b, (send_action st b).1 = false → (send_action st b).2 = st) ∧
    (∀ cs, (∀ b ∈ cs, (send_action st b).1 = false) → buttonLoop st cs = st) := by
  have hfail := send_action_fail_eq st
  have hloop : ∀ cs, (∀ b ∈ cs, (send_action st b).1 = false) → buttonLoop st cs = st := by
    intro cs
    induction cs with
    | nil => intro _; rfl
    | cons b2 rest ih =>
      intro hall
      have h1 := hall b2 (List.mem_cons_self _ _)
      have h2 := hfail b2 h1
      rcases hsa : send_action st b2 with ⟨ok, st2⟩
      rw [hsa] at h1 h2
      simp at h1 h2
      subst h1; subst h2
      simp only [buttonLoop, hsa]
      exact ih fun x hx => hall x (List.mem_cons_of_mem _ hx)
  refine ⟨?_, ?_, ?_, hfail, hloop⟩
  · intro h; simp [handle_midi_button, h]
  · intro b cs h hs
    rcases hsa : send_action st b with ⟨ok, st2⟩
    rw [hsa] at hs; simp at hs; subst hs
    simp [handle_midi_button, h, buttonLoop, hsa]
  · intro b cs h hs
    rcases hsa : send_action st b with ⟨ok, st2⟩
    have h2 := hfail b hs
    rw [hsa] at hs h2; simp at hs h2; subst hs; subst h2
    simp [handle_midi_button, h, buttonLoop, hsa]

/-- Witness for C2: an unmatched note is a no-op; in the fallback chain
`[B1 (no action), B2 (action)]` the dispatch falls through B1, transmits
exactly B2's message, and an all-failing chain transmits nothing. -/
theorem c2_button_dispatch_witness :
    handle_midi_button ⟨[⟨"note_on", 1, none, none, none, none, none, none, none⟩,
        ⟨"note_on", 1, none, some ("b2go"), none, none, none, none, none⟩], [], 2, []⟩
      ("note_on") 1 =
      buttonLoop ⟨[⟨"note_on", 1, none, none, none, none, none, none, none⟩,
        ⟨"note_on", 1, none, some ("b2go"), none, none, none, none, none⟩], [], 2, []⟩
        [⟨"note_on", 1, none, some ("b2go"), none, none, none, none, none⟩] ∧
    buttonLoop ⟨[⟨"note_on", 1, none, none, none, none, none, none, none⟩,
        ⟨"note_on", 1, none, some ("b2go"), none, none, none, none, none⟩], [], 2, []⟩
        [⟨"note_on", 1, none, some ("b2go"), none, none, none, none, none⟩] =
      ⟨[⟨"note_on", 1, none, none, none, none, none, none, none⟩,
        ⟨"note_on", 1, none, some ("b2go"), none, none, none, none, none⟩], [], 2,
        [OutMsg.verbatim ("b2go")]⟩ ∧
    handle_midi_button (initState []) ("note_on") 9 = initState [] ∧
    buttonLoop (initState [⟨"note_on", 1, none, none, none, none, none, none, none⟩])
        [⟨"note_on", 1, none, none, none, none, none, none, none⟩] =
      initState [⟨"note_on", 1, none, none, none, none, none, none, none⟩] :=
  ⟨(c2_button_dispatch ⟨[⟨"note_on", 1, none, none, none, none, none, none, none⟩,
        ⟨"note_on", 1, none, some ("b2go"), none, none, none, none, none⟩], [], 2, []⟩
      ("note_on") 1).2.2.1
      ⟨"note_on", 1, none, none, none, none, none, none, none⟩
      [⟨"note_on", 1, none, some ("b2go"), none, none, none, none, none⟩]
      (by decide) (by decide),
   by decide,
   (c2_button_dispatch (initState []) ("note_on") 9).1 (by decide),
   (c2_button_dispatch (initState [⟨"note_on", 1, none, none, none, none, none, none, none⟩])
      ("note_on") 1).2.2.2.2
      [⟨"note_on", 1, none, none, none, none, none, none, none⟩] (by decide)⟩

/-- C1: on a control_change event whose first candidate binding has
`input_type = "button"`, `send_action` fires only when the raw value is 127:
any other value transmits nothing for that binding (a released no-op, not a
failure, so the failure fall-through does not apply); at 127 a successful
`send_action` ends the scan with exactly its transmission, and a failed one
falls through to the remaining candidates exactly as in the button chain. -/
theorem c1_fader_button_threshold (st : State) (b : Binding) (rest : List Binding)
    (control value : Int) (a : String)
    (hdb : st.db = b :: rest)
    (ht : b.msg_type = "control_change") (hk : b.msgNoC = control)
    (hit : b.input_type = some ("button")) (hact : b.action = some a) :
    (value ≠ 127 → handle_midi_fader st control value = Except.ok st) ∧
    (value = 127 → (send_action st b).1 = true →
      handle_midi_fader st control value = Except.ok (send_action st b).2) ∧
    (value = 127 → (send_action st b).1 = false →
      handle_midi_fader st control value =
        faderLoop st value (rest.filter fun x => x.msg_type == "control_change" && x.msgNoC == control)) := by
  have hpred : (b.msg_type == "control_change" && b.msgNoC == control) = true := by
    simp [ht, hk]
  have hres : st.db.filter (fun x => x.msg_type == "control_change" && x.msgNoC == control)
      = b :: rest.filter (fun x => x.msg_type == "control_change" && x.msgNoC == control) := by
    rw [hdb]; exact List.filter_cons_of_pos hpred
  refine ⟨?_, ?_, ?_⟩
  · intro hv
    have hv2 : (value == 127) = false := by simp [hv]
    simp [handle_midi_fader, hres, faderLoop, hit, hact, hv2]
  · intro hv hs
    rcases hsa : send_action st b with ⟨ok, st2⟩
    rw [hsa] at hs; simp at hs; subst hs; subst hv
    simp [handle_midi_fader, hres, faderLoop, hit, hact, hsa]
  · intro hv hs
    rcases hsa : send_action st b with ⟨ok, st2⟩
    have h2 := send_action_fail_eq st b hs
    rw [hsa] at hs h2; simp at hs h2; subst hs; subst h2; subst hv
    simp [handle_midi_fader, hres, faderLoop, hit, hact, hsa]

/-- Witness for C1: value 64 transmits nothing; value 127 transmits exactly
one message and stops; a failing 127-candidate falls through to the next
candidate, which then transmits. -/
theorem c1_fader_button_threshold_witness :
    handle_midi_fader ⟨[⟨"control_change", 7, some ("button"), some ("push"), none, none, none, none, none⟩], [], 2, []⟩ 7 64 =
      Except.ok ⟨[⟨"control_change", 7, some ("button"), some ("push"), none, none, none, none, none⟩], [], 2, []⟩ ∧
    handle_midi_fader ⟨[⟨"control_change", 7, some ("button"), some ("push"), none, none, none, none, none⟩], [], 2, []⟩ 7 127 =
      Except.ok (send_action ⟨[⟨"control_change", 7, some ("button"), some ("push"), none, none, none, none, none⟩], [], 2, []⟩
        ⟨"control_change", 7, some ("button"), some ("push"), none, none, none, none, none⟩).2 ∧
    (send_action ⟨[⟨"control_change", 7, some ("button"), some ("push"), none, none, none, none, none⟩], [], 2, []⟩
        ⟨"control_change", 7, some ("button"), some ("push"), none, none, none, none, none⟩).2.sent =
      [OutMsg.verbatim ("push")] ∧
    handle_midi_fader ⟨[⟨"control_change", 7, some ("button"), some ("x"), some ("Nope"), none, none, none, none⟩,
        ⟨"control_change", 7, some ("button"), some ("push"), none, none, none, none, none⟩], [], 2, []⟩ 7 127 =
      faderLoop ⟨[⟨"control_change", 7, some ("button"), some ("x"), some ("Nope"), none, none, none, none⟩,
        ⟨"control_change", 7, some ("button"), some ("push"), none, none, none, none, none⟩], [], 2, []⟩ 127
        ([⟨"control_change", 7, some ("button"), some ("push"), none, none, none, none, none⟩].filter
          fun x => x.msg_type == "control_change" && x.msgNoC == 7) ∧
    faderLoop ⟨[⟨"control_change", 7, some ("button"), some ("x"), some ("Nope"), none, none, none, none⟩,
        ⟨"control_change", 7, some ("button"), some ("push"), none, none, none, none, none⟩], [], 2, []⟩ 127
        ([⟨"control_change", 7, some ("button"), some ("push"), none, none, none, none, none⟩].filter
          fun x => x.msg_type == "control_change" && x.msgNoC == 7) =
      Except.ok ⟨[⟨"control_change", 7, some ("button"), some ("x"), some ("Nope"), none, none, none, none⟩,
        ⟨"control_change", 7, some ("button"), some ("push"), none, none, none, none, none⟩], [], 2,
        [OutMsg.verbatim ("push")]⟩ :=
  ⟨(c1_fader_button_threshold ⟨[⟨"control_change", 7, some ("button"), some ("push"), none, none, none, none, none⟩], [], 2, []⟩
      ⟨"control_change", 7, some ("button"), some ("push"), none, none, none, none, none⟩ [] 7 64 ("push")
      rfl rfl rfl rfl rfl).1 (by decide),
   (c1_fader_button_threshold ⟨[⟨"control_change", 7, some ("button"), some ("push"), none, none, none, none, none⟩], [], 2, []⟩
      ⟨"control_change", 7, some ("button"), some ("push"), none, none, none, none, none⟩ [] 7 127 ("push")
      rfl rfl rfl rfl rfl).2.1 rfl (by decide),
   by decide,
   (c1_fader_button_threshold ⟨[⟨"control_change", 7, some ("button"), some ("x"), some ("Nope"), none, none, none, none⟩,
        ⟨"control_change", 7, some ("button"), some ("push"), none, none, none, none, none⟩], [], 2, []⟩
      ⟨"control_change", 7, some ("button"), some ("x"), some ("Nope"), none, none, none, none⟩
      [⟨"control_change", 7, some ("button"), some ("push"), none, none, none, none, none⟩] 7 127 ("x")
      rfl rfl rfl rfl rfl).2.2 rfl (by decide),
   by rfl⟩

/-- C5: on a control_change event whose first candidate binding has
`input_type = "fader"` and one of the six value commands, dispatch always
scales the value through `map_scale value 0 127 scaleLow scaleHigh`,
substitutes the command-specific post-transform into the action template
(cube for SetVolume, truncation toward zero for SetSourceRotation,
SetTransitionDuration and SetSyncOffset, identity for SetSourcePosition and
SetSourceScale), transmits it without registering any pending entry (state
changes only in `sent`), and stops at that first match whatever follows. -/
theorem c5_fader_scaling (st : State) (b : Binding) (rest : List Binding)
    (control value : Int) (a cname : String) (lo hi : ℚ)
    (hdb : st.db = b :: rest)
    (ht : b.msg_type = "control_change") (hk : b.msgNoC = control)
    (hit : b.input_type = some ("fader")) (hact : b.action = some a)
    (hcmd : b.cmd = some cname) (hlo : b.scale_low = some lo) (hhi : b.scale_high = some hi) :
    (cname = "SetSourcePosition" ∨ cname = "SetSourceScale" →
      handle_midi_fader st control value = Except.ok { st with
        sent := st.sent ++ [OutMsg.formatted a (FmtArg.q (map_scale (value : ℚ) 0 127 lo hi))] }) ∧
    (cname = "SetVolume" →
      handle_midi_fader st control value = Except.ok { st with
        sent := st.sent ++ [OutMsg.formatted a (FmtArg.q ((map_scale (value : ℚ) 0 127 lo hi) ^ 3))] }) ∧
    (cname = "SetSourceRotation" ∨ cname = "SetTransitionDuration" ∨ cname = "SetSyncOffset" →
      handle_midi_fader st control value = Except.ok { st with
        sent := st.sent ++ [OutMsg.formatted a (FmtArg.i (ratTrunc (map_scale (value : ℚ) 0 127 lo hi)))] }) := by
  have hpred : (b.msg_type == "control_change" && b.msgNoC == control) = true := by
    simp [ht, hk]
  have hres : st.db.filter (fun x => x.msg_type == "control_change" && x.msgNoC == control)
      = b :: rest.filter (fun x => x.msg_type == "control_change" && x.msgNoC == control) := by
    rw [hdb]; exact List.filter_cons_of_pos hpred
  refine ⟨?_, ?_, ?_⟩
  · rintro (h | h) <;>
      simp [handle_midi_fader, hres, faderLoop, hit, hact, hcmd, hlo, hhi, h]
  · intro h
    simp [handle_midi_fader, hres, faderLoop, hit, hact, hcmd, hlo, hhi, h]
  · rintro (h | h | h) <;>
      simp [handle_midi_fader, hres, faderLoop, hit, hact, hcmd, hlo, hhi, h]

/-- Witness for C5 at representative inputs: identity substitution for
SetSourcePosition at value 64, cubic for SetVolume at value 64, truncation
for SetSourceRotation at values 64 and 127 (and the scaled values computed
concretely: endpoint 127 reaches the top of the range). -/
theorem c5_fader_scaling_witness :
    handle_midi_fader ⟨[⟨"control_change", 3, some ("fader"), some ("p%f"), none, none, some ("SetSourcePosition"), some 0, some 100⟩], [], 2, []⟩ 3 64 =
      Except.ok ⟨[⟨"control_change", 3, some ("fader"), some ("p%f"), none, none, some ("SetSourcePosition"), some 0, some 100⟩], [], 2,
        [OutMsg.formatted ("p%f") (FmtArg.q (map_scale (64 : ℚ) 0 127 0 100))]⟩ ∧
    map_scale (64 : ℚ) 0 127 0 100 = 6400 / 127 ∧
    handle_midi_fader ⟨[⟨"control_change", 3, some ("fader"), some ("v%f"), none, none, some ("SetVolume"), some 0, some 1⟩], [], 2, []⟩ 3 64 =
      Except.ok ⟨[⟨"control_change", 3, some ("fader"), some ("v%f"), none, none, some ("SetVolume"), some 0, some 1⟩], [], 2,
        [OutMsg.formatted ("v%f") (FmtArg.q ((map_scale (64 : ℚ) 0 127 0 1) ^ 3))]⟩ ∧
    (map_scale (64 : ℚ) 0 127 0 1) ^ 3 = 262144 / 2048383 ∧
    handle_midi_fader ⟨[⟨"control_change", 3, some ("fader"), some ("r%d"), none, none, some ("SetSourceRotation"), some 0, some 90⟩], [], 2, []⟩ 3 64 =
      Except.ok ⟨[⟨"control_change", 3, some ("fader"), some ("r%d"), none, none, some ("SetSourceRotation"), some 0, some 90⟩], [], 2,
        [OutMsg.formatted ("r%d") (FmtArg.i (ratTrunc (map_scale (64 : ℚ) 0 127 0 90)))]⟩ ∧
    ratTrunc (map_scale (64 : ℚ) 0 127 0 90) = 45 ∧
    ratTrunc (map_scale (127 : ℚ) 0 127 0 90) = 90 := by
  refine ⟨?_, by norm_num [map_scale], ?_, by norm_num [map_scale], ?_, ?_, ?_⟩
  · exact (c5_fader_scaling ⟨[⟨"control_change", 3, some ("fader"), some ("p%f"), none, none, some ("SetSourcePosition"), some 0, some 100⟩], [], 2, []⟩
      ⟨"control_change", 3, some ("fader"), some ("p%f"), none, none, some ("SetSourcePosition"), some 0, some 100⟩ [] 3 64
      ("p%f") ("SetSourcePosition") 0 100 rfl rfl rfl rfl rfl rfl rfl rfl).1 (Or.inl rfl)
  · exact (c5_fader_scaling ⟨[⟨"control_change", 3, some ("fader"), some ("v%f"), none, none, some ("SetVolume"), some 0, some 1⟩], [], 2, []⟩
      ⟨"control_change", 3, some ("fader"), some ("v%f"), none, none, some ("SetVolume"), some 0, some 1⟩ [] 3 64
      ("v%f") ("SetVolume") 0 1 rfl rfl rfl rfl rfl rfl rfl rfl).2.1 rfl
  · exact (c5_fader_scaling ⟨[⟨"control_change", 3, some ("fader"), some ("r%d"), none, none, some ("SetSourceRotation"), some 0, some 90⟩], [], 2, []⟩
      ⟨"control_change", 3, some ("fader"), some ("r%d"), none, none, some ("SetSourceRotation"), some 0, some 90⟩ [] 3 64
      ("r%d") ("SetSourceRotation") 0 90 rfl rfl rfl rfl rfl rfl rfl rfl).2.2 (Or.inl rfl)
  · have h : map_scale (64 : ℚ) 0 127 0 90 = 5760 / 127 := by norm_num [map_scale]
    rw [ratTrunc, h]
    norm_num
  · have h : map_scale (127 : ℚ) 0 127 0 90 = 90 := by norm_num [map_scale]
    rw [ratTrunc, h]
    norm_num

/-- Scanning the action buffer skips every leading entry whose id differs from
the parsed message id. -/
theorem obsScan_skip (st : State) (p : Payload) (mid : String) (n : Int)
    (hp : parseInt mid = some n) :
    ∀ pre l, (∀ x ∈ pre, (x.id : Int) ≠ n) →
      obsScan st p mid (pre ++ l) = obsScan st p mid l := by
  intro pre
  induction pre with
  | nil => intro l _; rfl
  | cons x xs ih =>
    intro l hall
    have hx : ((x.id : Int) != n) = true := by
      simp [hall x (List.mem_cons_self _ _)]
    simp only [List.cons_append, obsScan, hp, hx, if_true]
    exact ih l fun y hy => hall y (List.mem_cons_of_mem _ hy)

/-- `list.remove` deletes exactly the first occurrence of `e` when everything
before it differs from `e`. -/
theorem removeFirst_append_of_ne (e : Entry) :
    ∀ pre post, (∀ x ∈ pre, x ≠ e) →
      removeFirst (pre ++ e :: post) e = pre ++ post := by
  intro pre
  induction pre with
  | nil => intro post _; simp [removeFirst]
  | cons x xs ih =>
    intro post hall
    have hx : (x == e) = false := by
      simp [hall x (List.mem_cons_self _ _)]
    simp only [List.cons_append, removeFirst, hx, Bool.false_eq_true, if_false, List.append_eq]
    rw [ih post fun y hy => hall y (List.mem_cons_of_mem _ hy)]

/-- The matched entry at the head of the scan produces the synthesized
follow-up for its command kind and removes itself from the buffer. -/
theorem obsScan_match (st : State) (p : Payload) (mid : String) (e : Entry) (l : List Entry)
    (hp : parseInt mid = some (e.id : Int)) :
    (e.kind = "ToggleSourceVisibility" → ∀ v, p.visible = some v →
      obsScan st p mid (e :: l) = Except.ok { st with
        sent := st.sent ++ [OutMsg.formatted e.template (FmtArg.s (if v then "false" else "true"))],
        buffer := removeFirst st.buffer e }) ∧
    (e.kind = "ReloadBrowserSource" → ∀ u, p.sourceSettingsUrl = some u → u ≠ "" →
      obsScan st p mid (e :: l) = Except.ok { st with
        sent := st.sent ++ [OutMsg.formatted e.template
          (FmtArg.s (if u.back == '#' then u.dropRight 1 else u ++ "#"))],
        buffer := removeFirst st.buffer e }) := by
  constructor
  · intro hk v hv
    simp [obsScan, hp, hk, hv]
  · intro hk u hu hne
    have hne2 : (u == "") = false := by simp [hne]
    simp [obsScan, hp, hk, hu, hne2]

/-- C6: a non-error reply whose message-id (a string compared as an integer)
matches a pending entry synthesizes and transmits that entry's follow-up —
the inverted `visible` literal for ToggleSourceVisibility, the url with its
trailing marker toggled for ReloadBrowserSource, substituted into the stored
raw action — and removes exactly the matched entry from the buffer, so one
register followed by one matching resolve takes the entry count from 1 to 0. -/
theorem c6_resolve_followup (st : State) (p : Payload) (pre post : List Entry)
    (e : Entry) (mid : String)
    (hbuf : st.buffer = pre ++ e :: post)
    (hpre : ∀ x ∈ pre, x.id ≠ e.id)
    (herr : p.errorPresent = false)
    (hmid : p.messageId = some mid)
    (hparse : parseInt mid = some (e.id : Int)) :
    (e.kind = "ToggleSourceVisibility" → ∀ v, p.visible = some v →
      handle_obs_message st p = Except.ok { st with
        sent := st.sent ++ [OutMsg.formatted e.template (FmtArg.s (if v then "false" else "true"))],
        buffer := pre ++ post }) ∧
    (e.kind = "ReloadBrowserSource" → ∀ u, p.sourceSettingsUrl = some u → u ≠ "" →
      handle_obs_message st p = Except.ok { st with
        sent := st.sent ++ [OutMsg.formatted e.template
          (FmtArg.s (if u.back == '#' then u.dropRight 1 else u ++ "#"))],
        buffer := pre ++ post }) := by
  have hpre2 : ∀ x ∈ pre, (x.id : Int) ≠ (e.id : Int) := by
    intro x hx
    exact_mod_cast fun h => hpre x hx (by exact_mod_cast h)
  have hpre3 : ∀ x ∈ pre, x ≠ e := by
    intro x hx hcontra
    exact hpre x hx (by rw [hcontra])
  have hrm : removeFirst st.buffer e = pre ++ post := by
    rw [hbuf]; exact removeFirst_append_of_ne e pre post hpre3
  have hmain : handle_obs_message st p = obsScan st p mid (e :: post) := by
    simp only [handle_obs_message, herr, Bool.false_eq_true, if_false, hmid, hbuf]
    exact obsScan_skip st p mid (e.id : Int) hparse pre (e :: post) hpre2
  constructor
  · intro hk v hv
    rw [hmain, (obsScan_match st p mid e post hparse).1 hk v hv, hrm]
  · intro hk u hu hne
    rw [hmain, (obsScan_match st p mid e post hparse).2 hk u hu hne, hrm]

/-- Witness for C6: the spec round-trip — entry `(5, "tpl%s",
"ReloadBrowserSource")` resolved by `message-id "5"` with url `"http://x#"`
yields a follow-up referencing `"http://x"` (marker stripped) and an empty
buffer; and a ToggleSourceVisibility entry with `visible = true` yields the
`"false"` literal. -/
theorem c6_resolve_followup_witness :
    handle_obs_message ⟨[], [⟨5, "tpl%s", "ReloadBrowserSource"⟩], 6, []⟩
        ⟨false, some ("5"), none, some ("http://x#")⟩ =
      Except.ok ⟨[], [], 6, [OutMsg.formatted ("tpl%s") (FmtArg.s ("http://x"))]⟩ ∧
    handle_obs_message ⟨[], [⟨7, "t%s", "ToggleSourceVisibility"⟩], 8, []⟩
        ⟨false, some ("7"), some true, none⟩ =
      Except.ok ⟨[], [], 8, [OutMsg.formatted ("t%s") (FmtArg.s ("false"))]⟩ := by
  constructor
  · rw [(c6_resolve_followup ⟨[], [⟨5, "tpl%s", "ReloadBrowserSource"⟩], 6, []⟩
        ⟨false, some ("5"), none, some ("http://x#")⟩ [] [] ⟨5, "tpl%s", "ReloadBrowserSource"⟩
        ("5") rfl (by simp) rfl rfl (by decide)).2 rfl ("http://x#") rfl (by decide)]
    rfl
  · rw [(c6_resolve_followup ⟨[], [⟨7, "t%s", "ToggleSourceVisibility"⟩], 8, []⟩
        ⟨false, some ("7"), some true, none⟩ [] [] ⟨7, "t%s", "ToggleSourceVisibility"⟩
        ("7") rfl (by simp) rfl rfl (by decide)).1 rfl true rfl]
    rfl

/-- C7: the resolver transmits nothing and leaves the buffer untouched (the
whole state unchanged) when the reply carries a top-level error indicator
(the pending entry is left dangling) or when the parsed message-id matches no
pending entry (stale or foreign reply, ignored silently). -/
theorem c7_resolve_noop (st : State) (p : Payload) :
    (p.errorPresent = true → handle_obs_message st p = Except.ok st) ∧
    (∀ mid n, p.errorPresent = false → p.messageId = some mid → parseInt mid = some n →
      (∀ e ∈ st.buffer, (e.id : Int) ≠ n) → handle_obs_message st p = Except.ok st) := by
  constructor
  · intro h; simp [handle_obs_message, h]
  · intro mid n herr hmid hp hall
    have h1 : handle_obs_message st p = obsScan st p mid st.buffer := by
      simp only [handle_obs_message, herr, Bool.false_eq_true, if_false, hmid]
    have h2 := obsScan_skip st p mid n hp st.buffer [] hall
    rw [List.append_nil] at h2
    rw [h1, h2]
    rfl

/-- Witness for C7: an error reply leaves the one pending entry dangling and
the state unchanged; a reply with unknown message-id 9 is a silent no-op. -/
theorem c7_resolve_noop_witness :
    handle_obs_message ⟨[], [⟨2, "t%s", "ToggleSourceVisibility"⟩], 3, []⟩
        ⟨true, some ("2"), none, none⟩ =
      Except.ok ⟨[], [⟨2, "t%s", "ToggleSourceVisibility"⟩], 3, []⟩ ∧
    handle_obs_message ⟨[], [⟨2, "t%s", "ToggleSourceVisibility"⟩], 3, []⟩
        ⟨false, some ("9"), none, none⟩ =
      Except.ok ⟨[], [⟨2, "t%s", "ToggleSourceVisibility"⟩], 3, []⟩ :=
  ⟨(c7_resolve_noop ⟨[], [⟨2, "t%s", "ToggleSourceVisibility"⟩], 3, []⟩
      ⟨true, some ("2"), none, none⟩).1 rfl,
   (c7_resolve_noop ⟨[], [⟨2, "t%s", "ToggleSourceVisibility"⟩], 3, []⟩
      ⟨false, some ("9"), none, none⟩).2 ("9") 9 rfl rfl (by decide) (by decide)⟩

/-- Counterexample for C9: per-event errors are not all handled locally.
A reply payload with no error indicator and no `message-id` key raises
`KeyError` out of `handle_obs_message`, and a matched binding without an
`input_type` field raises `KeyError` out of `handle_midi_fader`. -/
theorem c9_counterexample_raises :
    handle_obs_message (initState []) ⟨false, none, none, none⟩ =
      Except.error ("KeyError: message-id") ∧
    handle_midi_fader
        (initState [⟨"control_change", 1, none, none, none, none, none, none, none⟩]) 1 64 =
      Except.error ("KeyError: input_type") :=
  ⟨rfl, rfl⟩

/-- C9 as amended: the benign per-event conditions are handled locally —
remote error replies, replies whose message-id matches no pending entry, and
MIDI events with no matching binding all return normally (and
`handle_midi_button` and `send_action` are total by construction) — but
malformed payloads or bindings can still raise out of `handle_obs_message`
and `handle_midi_fader`. -/
theorem c9_local_error_handling (st : State) (p : Payload) (control value : Int) :
    (p.errorPresent = true → ∃ st2, handle_obs_message st p = Except.ok st2) ∧
    (∀ mid n, p.errorPresent = false → p.messageId = some mid → parseInt mid = some n →
      (∀ e ∈ st.buffer, (e.id : Int) ≠ n) →
      ∃ st2, handle_obs_message st p = Except.ok st2) ∧
    ((st.db.filter fun x => x.msg_type == "control_change" && x.msgNoC == control) = [] →
      ∃ st2, handle_midi_fader st control value = Except.ok st2) := by
  refine ⟨?_, ?_, ?_⟩
  · intro h
    exact ⟨st, by simp [handle_obs_message, h]⟩
  · intro mid n herr hmid hp hall
    refine ⟨st, ?_⟩
    have h1 : handle_obs_message st p = obsScan st p mid st.buffer := by
      simp only [handle_obs_message, herr, Bool.false_eq_true, if_false, hmid]
    have h2 := obsScan_skip st p mid n hp st.buffer [] hall
    rw [List.append_nil] at h2
    rw [h1, h2]
    rfl
  · intro h
    exact ⟨st, by simp [handle_midi_fader, h]⟩

/-- Witness for the amended C9 at concrete inputs: an error reply, a reply
with foreign message-id 9, and a fader event with no binding all return
normally. -/
theorem c9_local_error_handling_witness :
    (∃ st2, handle_obs_message ⟨[], [⟨2, "t%s", "ToggleSourceVisibility"⟩], 3, []⟩
      ⟨true, none, none, none⟩ = Except.ok st2) ∧
    (∃ st2, handle_obs_message ⟨[], [⟨2, "t%s", "ToggleSourceVisibility"⟩], 3, []⟩
      ⟨false, some ("9"), none, none⟩ = Except.ok st2) ∧
    (∃ st2, handle_midi_fader (initState []) 1 64 = Except.ok st2) :=
  ⟨(c9_local_error_handling ⟨[], [⟨2, "t%s", "ToggleSourceVisibility"⟩], 3, []⟩
      ⟨true, none, none, none⟩ 1 64).1 rfl,
   (c9_local_error_handling ⟨[], [⟨2, "t%s", "ToggleSourceVisibility"⟩], 3, []⟩
      ⟨false, some ("9"), none, none⟩ 1 64).2.1 ("9") 9 rfl rfl (by decide) (by decide),
   (c9_local_error_handling (initState []) ⟨false, none, none, none⟩ 1 64).2.2 rfl⟩

/-- `idsFrom` computes lists of the stated length. -/
theorem idsFrom_length (s n : Nat) : (idsFrom s n).length = n := by
  induction n generalizing s with
  | zero => rfl
  | succ m ih => simp [idsFrom, ih]

/-- Unfolding equation of `idsFrom` at a successor. -/
theorem idsFrom_succ (s n : Nat) : idsFrom s (n + 1) = s :: idsFrom (s + 1) n := rfl

/-- `idsFrom` grows by appending the next id at the end. -/
theorem idsFrom_snoc (s n : Nat) : idsFrom s (n + 1) = idsFrom s n ++ [s + n] := by
  induction n generalizing s with
  | zero => simp [idsFrom]
  | succ m ih =>
    rw [idsFrom_succ, ih (s + 1), idsFrom_succ]
    simp [Nat.add_assoc, Nat.add_comm 1 m]

/-- Bounds for membership in `idsFrom`. -/
theorem mem_idsFrom {x s n : Nat} (h : x ∈ idsFrom s n) : s ≤ x ∧ x < s + n := by
  induction n generalizing s with
  | zero => cases h
  | succ m ih =>
    rw [idsFrom_succ] at h
    rcases List.mem_cons.1 h with h1 | h1
    · omega
    · have := ih h1
      omega

/-- `idsFrom` is strictly increasing. -/
theorem idsFrom_pairwise_lt (s n : Nat) : List.Pairwise (· < ·) (idsFrom s n) := by
  induction n generalizing s with
  | zero => exact List.Pairwise.nil
  | succ m ih =>
    rw [idsFrom_succ]
    refine List.Pairwise.cons ?_ (ih (s + 1))
    intro y hy
    have := (mem_idsFrom hy).1
    omega

/-- The i-th element of `idsFrom s n` is `s + i`. -/
theorem idsFrom_get (s n i : Nat) (h : i < (idsFrom s n).length) :
    (idsFrom s n).get ⟨i, h⟩ = s + i := by
  induction n generalizing s i with
  | zero => simp [idsFrom_length] at h
  | succ m ih =>
    cases i with
    | zero => simp [idsFrom]
    | succ j =>
      have hj : j < (idsFrom (s + 1) m).length := by
        simp [idsFrom_length] at h ⊢
        omega
      have := ih (s + 1) j hj
      simp only [idsFrom_succ, List.get_cons_succ]
      rw [this]
      omega

/-- `envelopeIds` distributes over concatenation of the send trace. -/
theorem envelopeIds_append (a b : List OutMsg) :
    envelopeIds (a ++ b) = envelopeIds a ++ envelopeIds b :=
  List.filterMap_append a b _

/-- The correlation-tracking invariant: the counter is 2 plus the number of
ids assigned so far, the assigned ids are exactly `2, 3, ...` in order, and
every pending entry carries an id that was assigned with its envelope. -/
def TrackInv (st : State) : Prop :=
  st.counter = 2 + (assignedIds st).length ∧
  assignedIds st = idsFrom 2 (assignedIds st).length ∧
  ∀ e ∈ st.buffer, e.id ∈ assignedIds st

/-- `send_action` either leaves the state unchanged, appends one verbatim
message, or appends one pending entry plus its envelope and bumps the
counter. -/
theorem send_action_state_cases (st : State) (b : Binding) :
    (send_action st b).2 = st ∨
    (∃ a, (send_action st b).2 = { st with sent := st.sent ++ [OutMsg.verbatim a] }) ∨
    (∃ a r tpl tgt, (send_action st b).2 = { st with
        buffer := st.buffer ++ [⟨st.counter, a, r⟩],
        counter := st.counter + 1,
        sent := st.sent ++ [OutMsg.envelope tpl st.counter tgt] }) := by
  rcases hA : b.action with _ | a
  · left; simp [send_action, hA]
  · by_cases ha : a = ""
    · left; simp [send_action, hA, ha]
    · rcases hR : b.request with _ | r
      · right; left; exact ⟨a, by simp [send_action, hA, ha, hR]⟩
      · by_cases hr : r = ""
        · right; left; exact ⟨a, by simp [send_action, hA, ha, hR, hr]⟩
        · rcases hT : TEMPLATES r with _ | tpl
          · left; simp [send_action, hA, ha, hR, hr, hT]
          · rcases hG : b.target with _ | g
            · left; simp [send_action, hA, ha, hR, hr, hT, hG]
            · by_cases hg : g = ""
              · left; simp [send_action, hA, ha, hR, hr, hT, hG, hg]
              · right; right
                exact ⟨a, r, tpl, g, by simp [send_action, hA, ha, hR, hr, hT, hG, hg]⟩

/-- `send_action` preserves the tracking invariant. -/
theorem TrackInv_send_action (st : State) (b : Binding) (h : TrackInv st) :
    TrackInv (send_action st b).2 := by
  rcases send_action_state_cases st b with hc | ⟨a, hc⟩ | ⟨a, r, tpl, tgt, hc⟩
  · rwa [hc]
  · rw [hc]
    obtain ⟨h1, h2, h3⟩ := h
    refine ⟨?_, ?_, ?_⟩ <;>
      simp only [TrackInv, assignedIds, envelopeIds_append] at *
    · simpa [envelopeIds] using h1
    · simpa [envelopeIds] using h2
    · simpa [envelopeIds] using h3
  · rw [hc]
    obtain ⟨h1, h2, h3⟩ := h
    have hids : envelopeIds (st.sent ++ [OutMsg.envelope tpl st.counter tgt]) =
        envelopeIds st.sent ++ [st.counter] := by
      rw [envelopeIds_append]; rfl
    refine ⟨?_, ?_, ?_⟩
    · simp only [assignedIds] at *
      rw [hids]
      simp only [List.length_append, List.length_singleton]
      omega
    · simp only [assignedIds] at *
      rw [hids, List.length_append, List.length_singleton, h1, idsFrom_snoc]
      rw [h2]
      simp [idsFrom_length]
    · intro e he
      simp only [assignedIds] at *
      rw [hids]
      rcases List.mem_append.1 he with he1 | he1
      · exact List.mem_append_left _ (h3 e he1)
      · rcases List.mem_singleton.1 he1 with rfl
        exact List.mem_append_right _ (by simp [h1])

/-- The button fallback chain preserves the tracking invariant. -/
theorem TrackInv_buttonLoop (l : List Binding) :
    ∀ st : State, TrackInv st → TrackInv (buttonLoop st l) := by
  induction l with
  | nil => intro st h; exact h
  | cons b rest ih =>
    intro st h
    have h2 := TrackInv_send_action st b h
    rcases hsa : send_action st b with ⟨ok, stx⟩
    rw [hsa] at h2
    cases ok
    · simp only [buttonLoop, hsa]
      exact ih stx h2
    · simp only [buttonLoop, hsa]
      exact h2

/-- `list.remove` only removes: every survivor was in the original list. -/
theorem removeFirst_subset (e : Entry) :
    ∀ l x, x ∈ removeFirst l e → x ∈ l := by
  intro l
  induction l with
  | nil => intro x h; cases h
  | cons y ys ih =>
    intro x h
    by_cases hy : (y == e) = true
    · simp only [removeFirst, hy, if_true] at h
      exact List.mem_cons_of_mem _ h
    · simp only [removeFirst, hy, if_false] at h
      rcases List.mem_cons.1 h with h1 | h1
      · exact h1 ▸ List.mem_cons_self _ _
      · exact List.mem_cons_of_mem _ (ih x h1)

/-- The reply-resolver scan preserves the tracking invariant on every
non-raising outcome. -/
theorem TrackInv_obsScan (st : State) (p : Payload) (mid : String) :
    ∀ (l : List Entry) (st2 : State), TrackInv st →
      obsScan st p mid l = Except.ok st2 → TrackInv st2 := by
  intro l
  induction l with
  | nil =>
    intro st2 h hok
    simp only [obsScan] at hok
    cases hok
    exact h
  | cons e rest ih =>
    intro st2 h hok
    obtain ⟨h1, h2, h3⟩ := h
    rcases hp : parseInt mid with _ | n
    · simp [obsScan, hp] at hok
    · by_cases hbne : ((e.id : Int) != n) = true
      · simp only [obsScan, hp, hbne, if_true] at hok
        exact ih st2 ⟨h1, h2, h3⟩ hok
      · have hrm : ∀ x ∈ removeFirst st.buffer e, x.id ∈ assignedIds st :=
          fun x hx => h3 x (removeFirst_subset e st.buffer x hx)
        by_cases hk1 : (e.kind == "ToggleSourceVisibility") = true
        · rcases hv : p.visible with _ | vis
          · simp [obsScan, hp, hbne, hk1, hv] at hok
          · simp only [obsScan, hp, hbne, hk1, hv, if_false, if_true] at hok
            cases hok
            refine ⟨?_, ?_, ?_⟩ <;>
              simp only [TrackInv, assignedIds, envelopeIds_append] at *
            · simpa [envelopeIds] using h1
            · simpa [envelopeIds] using h2
            · intro x hx
              simpa [envelopeIds] using hrm x hx
        · by_cases hk2 : (e.kind == "ReloadBrowserSource") = true
          · rcases hu : p.sourceSettingsUrl with _ | src
            · simp [obsScan, hp, hbne, hk1, hk2, hu] at hok
            · by_cases hsrc : (src == "") = true
              · simp [obsScan, hp, hbne, hk1, hk2, hu, hsrc] at hok
              · simp only [obsScan, hp, hbne, hk1, hk2, hu, hsrc, if_false, if_true] at hok
                cases hok
                refine ⟨?_, ?_, ?_⟩ <;>
                  simp only [TrackInv, assignedIds, envelopeIds_append] at *
                · simpa [envelopeIds] using h1
                · simpa [envelopeIds] using h2
                · intro x hx
                  simpa [envelopeIds] using hrm x hx
          · simp only [obsScan, hp, hbne, hk1, hk2, if_false] at hok
            cases hok
            exact ⟨h1, h2, hrm⟩

/-- The fader dispatch loop preserves the tracking invariant on every
non-raising outcome. -/
theorem TrackInv_faderLoop (value : Int) :
    ∀ (l : List Binding) (st st2 : State), TrackInv st →
      faderLoop st value l = Except.ok st2 → TrackInv st2 := by
  intro l
  induction l with
  | nil =>
    intro st st2 h hok
    simp only [faderLoop] at hok
    cases hok
    exact h
  | cons b rest ih =>
    intro st st2 h hok
    rcases hit : b.input_type with _ | itype
    · simp [faderLoop, hit] at hok
    rcases hact : b.action with _ | act
    · simp [faderLoop, hit, hact] at hok
    by_cases hbtn : (itype == "button") = true
    · by_cases hv : (value == 127) = true
      · have h2 := TrackInv_send_action st b h
        rcases hsa : send_action st b with ⟨ok, stx⟩
        rw [hsa] at h2
        cases ok
        · simp only [faderLoop, hit, hact, hbtn, hv, if_true, hsa] at hok
          exact ih stx st2 h2 hok
        · simp only [faderLoop, hit, hact, hbtn, hv, if_true, hsa] at hok
          cases hok
          exact h2
      · simp only [faderLoop, hit, hact, hbtn, if_true] at hok
        rw [if_neg (by simp_all)] at hok
        cases hok
        exact h
    · by_cases hfad : (itype == "fader") = true
      · rcases hcmd : b.cmd with _ | command
        · simp [faderLoop, hit, hact, hbtn, hfad, hcmd] at hok
        rcases hlo : b.scale_low with _ | lo
        · simp [faderLoop, hit, hact, hbtn, hfad, hcmd, hlo] at hok
        rcases hhi : b.scale_high with _ | hi
        · simp [faderLoop, hit, hact, hbtn, hfad, hcmd, hlo, hhi] at hok
        obtain ⟨h1, h2, h3⟩ := h
        by_cases hc1 : (command == "SetSourcePosition" || command == "SetSourceScale") = true
        · simp only [faderLoop, hit, hact, hbtn, hfad, hcmd, hlo, hhi, hc1,
            Bool.false_eq_true, if_false, if_true] at hok
          cases hok
          refine ⟨?_, ?_, ?_⟩ <;>
            simp only [TrackInv, assignedIds, envelopeIds_append] at *
          · simpa [envelopeIds] using h1
          · simpa [envelopeIds] using h2
          · intro x hx
            simpa [envelopeIds] using h3 x hx
        · by_cases hc2 : (command == "SetVolume") = true
          · simp only [faderLoop, hit, hact, hbtn, hfad, hcmd, hlo, hhi, hc1, hc2,
              Bool.false_eq_true, if_false, if_true] at hok
            cases hok
            refine ⟨?_, ?_, ?_⟩ <;>
              simp only [TrackInv, assignedIds, envelopeIds_append] at *
            · simpa [envelopeIds] using h1
            · simpa [envelopeIds] using h2
            · intro x hx
              simpa [envelopeIds] using h3 x hx
          · by_cases hc3 : (command == "SetSourceRotation" || command == "SetTransitionDuration"
                || command == "SetSyncOffset") = true
            · simp only [faderLoop, hit, hact, hbtn, hfad, hcmd, hlo, hhi, hc1, hc2, hc3,
                Bool.false_eq_true, if_false, if_true] at hok
              cases hok
              refine ⟨?_, ?_, ?_⟩ <;>
                simp only [TrackInv, assignedIds, envelopeIds_append] at *
              · simpa [envelopeIds] using h1
              · simpa [envelopeIds] using h2
              · intro x hx
                simpa [envelopeIds] using h3 x hx
            · simp only [faderLoop, hit, hact, hbtn, hfad, hcmd, hlo, hhi, hc1, hc2, hc3,
                Bool.false_eq_true, if_false] at hok
              exact ih st st2 ⟨h1, h2, h3⟩ hok
      · simp only [faderLoop, hit, hact, hbtn, hfad, Bool.false_eq_true, if_false] at hok
        exact ih st st2 h hok

/-- `handle_midi_fader` preserves the tracking invariant. -/
theorem TrackInv_handle_midi_fader (st : State) (c v : Int) (st2 : State) (h : TrackInv st)
    (hok : handle_midi_fader st c v = Except.ok st2) : TrackInv st2 := by
  simp only [handle_midi_fader] at hok
  split at hok
  · cases hok; exact h
  · exact TrackInv_faderLoop v _ st st2 h hok

/-- `handle_obs_message` preserves the tracking invariant. -/
theorem TrackInv_handle_obs_message (st : State) (p : Payload) (st2 : State) (h : TrackInv st)
    (hok : handle_obs_message st p = Except.ok st2) : TrackInv st2 := by
  simp only [handle_obs_message] at hok
  split at hok
  · cases hok; exact h
  · rcases hm : p.messageId with _ | mid
    · rw [hm] at hok; simp at hok
    · rw [hm] at hok
      exact TrackInv_obsScan st p mid st.buffer st2 h hok

/-- Every callback invocation preserves the tracking invariant. -/
theorem TrackInv_step (st : State) (op : Op) (h : TrackInv st) : TrackInv (step st op) := by
  cases op with
  | midiButton t n =>
    show TrackInv (handle_midi_button st t n)
    simp only [handle_midi_button]
    split
    · exact h
    · exact TrackInv_buttonLoop _ st h
  | midiFader c v =>
    show TrackInv (match handle_midi_fader st c v with
      | Except.ok st2 => st2
      | Except.error _ => st)
    rcases hr : handle_midi_fader st c v with msg | st2
    · exact h
    · exact TrackInv_handle_midi_fader st c v st2 h hr
  | obsMsg p =>
    show TrackInv (match handle_obs_message st p with
      | Except.ok st2 => st2
      | Except.error _ => st)
    rcases hr : handle_obs_message st p with msg | st2
    · exact h
    · exact TrackInv_handle_obs_message st p st2 h hr

/-- Whole process lifetimes preserve the tracking invariant. -/
theorem TrackInv_run (ops : List Op) :
    ∀ st : State, TrackInv st → TrackInv (run st ops) := by
  induction ops with
  | nil => intro st h; exact h
  | cons op rest ih => intro st h; exact ih (step st op) (TrackInv_step st op h)

/-- The freshly initialized handler satisfies the tracking invariant. -/
theorem TrackInv_initState (db : List Binding) : TrackInv (initState db) :=
  ⟨rfl, rfl, by simp [initState]⟩

/-- C8: across every sequence of dispatcher operations in one process
lifetime, the correlation ids assigned to tracked requests (read off the sent
envelopes, in order of assignment) are strictly monotonically increasing and
pairwise distinct — no id is ever reused. -/
theorem c8_correlation_ids_unique (db : List Binding) (ops : List Op) :
    List.Chain' (· < ·) (assignedIds (run (initState db) ops)) ∧
    List.Pairwise (· ≠ ·) (assignedIds (run (initState db) ops)) := by
  have h := TrackInv_run ops (initState db) (TrackInv_initState db)
  have hpw : List.Pairwise (· < ·) (assignedIds (run (initState db) ops)) := by
    rw [h.2.1]
    exact idsFrom_pairwise_lt _ _
  exact ⟨hpw.chain', hpw.imp Nat.ne_of_lt⟩

/-- C10: the correlation counter starts at 2, the assigned ids are exactly
`2, 3, ...` in order (so the first tracked request sends message-id 2 and the
n-th, at 0-based index i = n-1, is assigned 2 + i = n + 1), and ids 0 and 1
are never assigned to any pending entry. -/
theorem c10_counter_init_two (db : List Binding) (ops : List Op) :
    (initState db).counter = 2 ∧
    assignedIds (run (initState db) ops) =
      idsFrom 2 (assignedIds (run (initState db) ops)).length ∧
    (∀ (i : Nat) (hi : i < (assignedIds (run (initState db) ops)).length),
      (assignedIds (run (initState db) ops)).get ⟨i, hi⟩ = 2 + i) ∧
    (∀ e ∈ (run (initState db) ops).buffer, e.id ≠ 0 ∧ e.id ≠ 1) := by
  have h := TrackInv_run ops (initState db) (TrackInv_initState db)
  refine ⟨rfl, h.2.1, ?_, ?_⟩
  · intro i hi
    exact (List.get_of_eq h.2.1 ⟨i, hi⟩).trans (idsFrom_get 2 _ i _)
  · intro e he
    have hmem := h.2.2 e he
    rw [h.2.1] at hmem
    have := (mem_idsFrom hmem).1
    omega

/-- Witness for C10: one tracked button request assigns id 2 (the envelope
carries message-id 2, the buffer entry id 2 is neither 0 nor 1). -/
theorem c10_counter_init_two_witness :
    (initState [⟨"note_on", 1, none, some ("a%s"), some ("ToggleSourceVisibility"), some ("t"), none, none, none⟩]).counter = 2 ∧
    assignedIds (run (initState [⟨"note_on", 1, none, some ("a%s"), some ("ToggleSourceVisibility"), some ("t"), none, none, none⟩])
      [Op.midiButton ("note_on") 1]) = [2] ∧
    (assignedIds (run (initState [⟨"note_on", 1, none, some ("a%s"), some ("ToggleSourceVisibility"), some ("t"), none, none, none⟩])
      [Op.midiButton ("note_on") 1])).get ⟨0, by decide⟩ = 2 + 0 ∧
    ((2 : Nat) ≠ 0 ∧ (2 : Nat) ≠ 1) :=
  ⟨(c10_counter_init_two [⟨"note_on", 1, none, some ("a%s"), some ("ToggleSourceVisibility"), some ("t"), none, none, none⟩]
      [Op.midiButton ("note_on") 1]).1,
   by decide,
   (c10_counter_init_two [⟨"note_on", 1, none, some ("a%s"), some ("ToggleSourceVisibility"), some ("t"), none, none, none⟩]
      [Op.midiButton ("note_on") 1]).2.2.1 0 (by decide),
   (c10_counter_init_two [⟨"note_on", 1, none, some ("a%s"), some ("ToggleSourceVisibility"), some ("t"), none, none, none⟩]
      [Op.midiButton ("note_on") 1]).2.2.2 ⟨2, "a%s", "ToggleSourceVisibility"⟩ (by decide)⟩
